import Mathlib

/-!
Verification of the session-store persistence layer of a zero-knowledge-proof
authentication service (Go sources: internal/database/database.go, main.go,
plus the SQL schema shipped alongside).

The Go layer stores arbitrary-precision integers as base-10 text, keeps three
tables (users, auth_sessions, active_sessions) and exposes register / challenge
/ verification / session operations over them.  We embed the store as an
explicit state (lists of rows mirroring the SQL tables), the clock as an
explicit natural-number parameter standing for NOW(), and the uuid generator as
an explicit string argument.  Each Go method becomes a pure function from the
state to a result together with the post state; a SQL transaction that rolls
back is a function that returns the unchanged state with the error.
-/

deriving instance DecidableEq for Except

/-! ### Base-10 textual encoding of big integers

Models Go `(*big.Int).String()` (encoding) and `(*big.Int).SetString(s, 10)`
(parsing).  Digits are produced least-significant first with an explicit fuel
argument (fuel `n` suffices for value `n`), so everything reduces by `decide`.
-/

/-- Little-endian base-10 digits of `n`, with fuel bounding the recursion. -/
def toDecRevFuel : Nat → Nat → List Nat
  | 0, _ => []
  | _ + 1, 0 => []
  | fuel + 1, n + 1 => ((n + 1) % 10) :: toDecRevFuel fuel ((n + 1) / 10)

/-- Value of a little-endian base-10 digit list. -/
def ofDecRev : List Nat → Nat
  | [] => 0
  | d :: ds => d + 10 * ofDecRev ds

/-- The ASCII character of one decimal digit, as emitted by the Go encoder. -/
def digitChar (d : Nat) : Char := Char.ofNat (48 + d)

/-- Numeric value of a decimal digit character, as read by the Go parser. -/
def digitVal (c : Char) : Nat := c.toNat - 48

/-- Whether `c` is an ASCII decimal digit (the only characters `SetString`
accepts for base 10 besides a leading sign). -/
def isDecDigit (c : Char) : Bool := 48 ≤ c.toNat && c.toNat ≤ 57

/-- Decimal character string of a natural number: `"0"` for zero, otherwise
the big-endian digit characters.  Models `(*big.Int).String()` on `n ≥ 0`. -/
def natToDecChars (n : Nat) : List Char :=
  if n = 0 then ['0'] else (toDecRevFuel n n).reverse.map digitChar

/-- Parse a digit string back to a natural number; `none` unless the string is
nonempty and all characters are decimal digits. -/
def decCharsToNat? (cs : List Char) : Option Nat :=
  if !cs.isEmpty && cs.all isDecDigit then
    some (cs.foldl (fun acc c => acc * 10 + digitVal c) 0)
  else
    none

/-- Decimal character string of an integer, with a leading minus sign for
negative values.  Models `(*big.Int).String()`. -/
def intToDecChars (n : Int) : List Char :=
  if n < 0 then '-' :: natToDecChars n.natAbs else natToDecChars n.toNat

/-- Stored textual form of a big integer, as written by the Go layer. -/
def intToDecimal (n : Int) : String := ⟨intToDecChars n⟩

/-- Parse an optional sign followed by decimal digits.  Models
`(*big.Int).SetString(s, 10)`: `none` on the empty string, a bare sign, or any
non-digit character. -/
def decCharsToInt? (cs : List Char) : Option Int :=
  match cs with
  | [] => none
  | c :: rest =>
    if c = '-' then (decCharsToNat? rest).map (fun m => -(m : Int))
    else if c = '+' then (decCharsToNat? rest).map (fun m => (m : Int))
    else (decCharsToNat? (c :: rest)).map (fun m => (m : Int))

/-- Parse the stored textual form of a big integer. -/
def decimalToInt? (s : String) : Option Int := decCharsToInt? s.data

/-! ### Data model

The three SQL tables from the schema, with big integers kept in their stored
base-10 textual form (columns `y1 TEXT`, `challenge_c TEXT`, ...), and the Go
structs the store methods return after deserialization.  `SERIAL` ids are
modelled as one past the current row count; timestamps are naturals.
-/

/-- Row of the `users` table. -/
structure UsersRow where
  id : Nat
  username : String
  y1 : String
  y2 : String
  created_at : Nat
  updated_at : Nat
  deriving DecidableEq

/-- Row of the `auth_sessions` table. -/
structure AuthSessionsRow where
  id : Nat
  auth_id : String
  user_id : Nat
  challenge_c : String
  commitment_r1 : String
  commitment_r2 : String
  created_at : Nat
  expires_at : Nat
  verified : Bool
  deriving DecidableEq

/-- Row of the `active_sessions` table. -/
structure ActiveSessionsRow where
  id : Nat
  session_id : String
  user_id : Nat
  created_at : Nat
  expires_at : Nat
  last_activity : Nat
  deriving DecidableEq

/-- The whole store: the three tables. -/
structure DBState where
  users : List UsersRow
  auth_sessions : List AuthSessionsRow
  active_sessions : List ActiveSessionsRow
  deriving DecidableEq

/-- The Go `User` struct.  `Y1`/`Y2` are `Option Int`: the Go code calls
`big.Int.SetString` and ignores its failure flag, so a row whose text does not
parse yields a `User` whose big-int field is in the undefined post-failure
state, modelled here as `none`. -/
structure User where
  ID : Nat
  Username : String
  Y1 : Option Int
  Y2 : Option Int
  CreatedAt : Nat
  UpdatedAt : Nat
  deriving DecidableEq

/-- The Go `AuthSession` struct.  `Username` is never scanned by
`GetAuthSession` and stays at its zero value. -/
structure AuthSession where
  ID : Nat
  Username : String
  AuthID : String
  UserID : Nat
  ChallengeC : Option Int
  CommitmentR1 : Option Int
  CommitmentR2 : Option Int
  CreatedAt : Nat
  ExpiresAt : Nat
  Verified : Bool
  deriving DecidableEq

/-- The Go `ActiveSession` struct. -/
structure ActiveSession where
  ID : Nat
  SessionID : String
  UserID : Nat
  CreatedAt : Nat
  ExpiresAt : Nat
  LastActivity : Nat
  deriving DecidableEq

/-- A low-level error surfaced by the SQL layer: `sql.ErrNoRows` from a
`Scan`, or a unique-constraint violation reported by the driver. -/
inductive StoreErr where
  | noRows
  | uniqueViolation (constraint : String)
  deriving DecidableEq

/-- An error returned by a store method: either a plain `fmt.Errorf` message,
or an operation message wrapping the underlying driver error (`%w`). -/
inductive DBError where
  | msg (s : String)
  | wrapped (op : String) (inner : StoreErr)
  deriving DecidableEq

/-! ### Store operations

Each Go method of `internal/database/database.go` becomes a pure function.
`NOW()` / `time.Now()` is the explicit `now` argument; `uuid.New().String()`
is the explicit `authID` / `sessionID` argument.  Mutating methods return the
result together with the post state; a transaction that fails returns the
pre state unchanged (rollback).
-/

/-- Models Go `RegisterUser`: a single `INSERT INTO users (username, y1, y2)`
storing `y1.String()` / `y2.String()`.  The unique constraint on `username`
makes the insert fail on a duplicate, and the method wraps that driver error
as `failed to register user: ...`. -/
def RegisterUser (st : DBState) (username : String) (y1 y2 : Int) (now : Nat) :
    Except DBError Unit × DBState :=
  if st.users.any (fun u => u.username == username) then
    (.error (.wrapped "failed to register user" (.uniqueViolation "users_username_key")), st)
  else
    (.ok (), { st with users := st.users ++
      [{ id := st.users.length + 1, username := username,
         y1 := intToDecimal y1, y2 := intToDecimal y2,
         created_at := now, updated_at := now }] })

/-- Models Go `GetUserByUsername`: select by username, error
`user not found` on `sql.ErrNoRows`, then parse `y1`/`y2` with
`SetString(_, 10)` whose failure flag the code discards. -/
def GetUserByUsername (st : DBState) (username : String) : Except DBError User :=
  match st.users.find? (fun u => u.username == username) with
  | none => .error (.msg "user not found")
  | some row =>
    .ok { ID := row.id, Username := row.username,
          Y1 := decimalToInt? row.y1, Y2 := decimalToInt? row.y2,
          CreatedAt := row.created_at, UpdatedAt := row.updated_at }

/-- Models Go `GetUserByID`: identical to `GetUserByUsername` but keyed on the
numeric id. -/
def GetUserByID (st : DBState) (id : Nat) : Except DBError User :=
  match st.users.find? (fun u => u.id == id) with
  | none => .error (.msg "user not found")
  | some row =>
    .ok { ID := row.id, Username := row.username,
          Y1 := decimalToInt? row.y1, Y2 := decimalToInt? row.y2,
          CreatedAt := row.created_at, UpdatedAt := row.updated_at }

/-- Models Go `CreateAuthSession`: inside one transaction, resolve the
username to a user id (`Scan` of `SELECT id` gives `sql.ErrNoRows` for an
unknown username, wrapped as `failed to get user ID`), then insert the
challenge row with `expires_at = now + ttl`.  Any failure rolls back. -/
def CreateAuthSession (st : DBState) (username : String) (c r1 r2 : Int)
    (ttl : Nat) (authID : String) (now : Nat) : Except DBError String × DBState :=
  match st.users.find? (fun u => u.username == username) with
  | none => (.error (.wrapped "failed to get user ID" .noRows), st)
  | some u =>
    if st.auth_sessions.any (fun s => s.auth_id == authID) then
      (.error (.wrapped "failed to create auth session"
        (.uniqueViolation "auth_sessions_auth_id_key")), st)
    else
      (.ok authID, { st with auth_sessions := st.auth_sessions ++
        [{ id := st.auth_sessions.length + 1, auth_id := authID, user_id := u.id,
           challenge_c := intToDecimal c, commitment_r1 := intToDecimal r1,
           commitment_r2 := intToDecimal r2, created_at := now,
           expires_at := now + ttl, verified := false }] })

/-- Models Go `GetAuthSession`: `SELECT ... WHERE auth_id = $1 AND
expires_at > NOW()`; the single error message `auth session not found or
expired` covers both an absent id and an expired row.  The query does not
filter on `verified`. -/
def GetAuthSession (st : DBState) (authID : String) (now : Nat) :
    Except DBError AuthSession :=
  match st.auth_sessions.find?
      (fun s => s.auth_id == authID && decide (now < s.expires_at)) with
  | none => .error (.msg "auth session not found or expired")
  | some s =>
    .ok { ID := s.id, Username := "", AuthID := s.auth_id, UserID := s.user_id,
          ChallengeC := decimalToInt? s.challenge_c,
          CommitmentR1 := decimalToInt? s.commitment_r1,
          CommitmentR2 := decimalToInt? s.commitment_r2,
          CreatedAt := s.created_at, ExpiresAt := s.expires_at,
          Verified := s.verified }

/-- Models Go `CreateActiveSession`: inside one transaction, run
`UPDATE auth_sessions SET verified = true WHERE auth_id = $1 RETURNING
user_id` (note: the `WHERE` clause checks neither `verified` nor
`expires_at`), failing with wrapped `sql.ErrNoRows` only when no row has the
given `auth_id`; then insert the active session with
`expires_at = now + ttl`.  Any failure rolls back. -/
def CreateActiveSession (st : DBState) (authID : String) (ttl : Nat)
    (sessionID : String) (now : Nat) : Except DBError String × DBState :=
  match st.auth_sessions.find? (fun s => s.auth_id == authID) with
  | none => (.error (.wrapped "failed to verify auth session" .noRows), st)
  | some s =>
    if st.active_sessions.any (fun a => a.session_id == sessionID) then
      (.error (.wrapped "failed to create active session"
        (.uniqueViolation "active_sessions_session_id_key")), st)
    else
      (.ok sessionID,
       { st with
         auth_sessions := st.auth_sessions.map (fun r =>
           if r.auth_id == authID then { r with verified := true } else r),
         active_sessions := st.active_sessions ++
           [{ id := st.active_sessions.length + 1, session_id := sessionID,
              user_id := s.user_id, created_at := now,
              expires_at := now + ttl, last_activity := now }] })

/-- Models Go `GetActiveSession`: `SELECT ... WHERE session_id = $1 AND
expires_at > NOW()`, one error message for absent and expired alike. -/
def GetActiveSession (st : DBState) (sessionID : String) (now : Nat) :
    Except DBError ActiveSession :=
  match st.active_sessions.find?
      (fun a => a.session_id == sessionID && decide (now < a.expires_at)) with
  | none => .error (.msg "session not found or expired")
  | some a =>
    .ok { ID := a.id, SessionID := a.session_id, UserID := a.user_id,
          CreatedAt := a.created_at, ExpiresAt := a.expires_at,
          LastActivity := a.last_activity }

/-- Models Go `CleanupExpiredSessions`, which calls the SQL function
`cleanup_expired_sessions()`: `DELETE FROM auth_sessions WHERE expires_at <
CURRENT_TIMESTAMP` and the same for `active_sessions` (strictly less). -/
def CleanupExpiredSessions (st : DBState) (now : Nat) : DBState :=
  { st with
    auth_sessions := st.auth_sessions.filter (fun s => !decide (s.expires_at < now)),
    active_sessions := st.active_sessions.filter (fun a => !decide (a.expires_at < now)) }

/-! ### Process startup (main.go, --server branch) -/

/-- The `server.Config` built by `main`: the proof-system parameters and the
possibly-nil database handle. -/
structure ServerConfig (P D : Type) where
  CPZKP : P
  DB : Option D

/-- Outcome of the startup sequence: `log.Fatal` aborts the process, or the
gRPC server is started with the given configuration. -/
inductive BootOutcome (P D : Type) where
  | fatalExit (message : String)
  | started (cfg : ServerConfig P D)

/-- Models the `--server` branch of `main`: `log.Fatal` if parameter
generation fails; if `NewDatabase` fails, log a warning, set `db = nil` and
continue; then start the server with the resulting configuration. -/
def mainServer {P D : Type} (cpzkpResult : Except String P)
    (dbResult : Except String D) : BootOutcome P D :=
  match cpzkpResult with
  | .error e => .fatalExit ("error generating system parameters:" ++ e)
  | .ok params =>
    match dbResult with
    | .error _ => .started { CPZKP := params, DB := none }
    | .ok db => .started { CPZKP := params, DB := some db }

/-! ### Properties of the textual encoding -/

theorem ofDecRev_toDecRevFuel : ∀ (fuel n : Nat), n ≤ fuel →
    ofDecRev (toDecRevFuel fuel n) = n := by
  intro fuel
  induction fuel with
  | zero =>
    intro n hn
    interval_cases n
    simp [toDecRevFuel, ofDecRev]
  | succ fuel ih =>
    intro n hn
    match n with
    | 0 => simp [toDecRevFuel, ofDecRev]
    | m + 1 =>
      have hdiv : (m + 1) / 10 ≤ fuel := by
        have h1 : (m + 1) / 10 < m + 1 := Nat.div_lt_self (Nat.succ_pos m) (by omega)
        omega
      simp only [toDecRevFuel, ofDecRev, ih _ hdiv]
      omega

theorem toDecRevFuel_lt_ten : ∀ (fuel n d : Nat), d ∈ toDecRevFuel fuel n → d < 10 := by
  intro fuel
  induction fuel with
  | zero => intro n d hd; simp [toDecRevFuel] at hd
  | succ fuel ih =>
    intro n d hd
    match n with
    | 0 => simp [toDecRevFuel] at hd
    | m + 1 =>
      simp only [toDecRevFuel, List.mem_cons] at hd
      rcases hd with h | h
      · omega
      · exact ih _ _ h

theorem toDecRevFuel_ne_nil (fuel n : Nat) :
    toDecRevFuel (fuel + 1) (n + 1) ≠ [] := by
  simp [toDecRevFuel]

theorem digitVal_digitChar {d : Nat} (hd : d < 10) : digitVal (digitChar d) = d := by
  interval_cases d <;> decide

theorem isDecDigit_digitChar {d : Nat} (hd : d < 10) : isDecDigit (digitChar d) = true := by
  interval_cases d <;> decide

theorem foldr_digitChar_eq_ofDecRev (dl : List Nat) (h : ∀ d ∈ dl, d < 10) :
    dl.foldr (fun d acc => acc * 10 + digitVal (digitChar d)) 0 = ofDecRev dl := by
  induction dl with
  | nil => rfl
  | cons d ds ih =>
    have hd : d < 10 := h d (List.mem_cons_self d ds)
    have hds : ∀ x ∈ ds, x < 10 := fun x hx => h x (List.mem_cons_of_mem d hx)
    simp only [List.foldr_cons, ofDecRev, ih hds, digitVal_digitChar hd]
    omega

theorem decCharsToNat?_natToDecChars (n : Nat) :
    decCharsToNat? (natToDecChars n) = some n := by
  by_cases h0 : n = 0
  · subst h0; decide
  · have hne : toDecRevFuel n n ≠ [] := by
      match n, h0 with
      | m + 1, _ => exact toDecRevFuel_ne_nil m m
    have hdig : ∀ d ∈ toDecRevFuel n n, d < 10 := fun d hd => toDecRevFuel_lt_ten n n d hd
    have hall : ((toDecRevFuel n n).reverse.map digitChar).all isDecDigit = true := by
      simp only [List.all_eq_true, List.mem_map, List.mem_reverse]
      rintro c ⟨d, hd, rfl⟩
      exact isDecDigit_digitChar (hdig d hd)
    have hnonempty : ((toDecRevFuel n n).reverse.map digitChar).isEmpty = false := by
      rcases List.exists_cons_of_ne_nil hne with ⟨d, ds, hcons⟩
      simp [hcons]
    have hfold : ((toDecRevFuel n n).reverse.map digitChar).foldl
        (fun acc c => acc * 10 + digitVal c) 0 = n := by
      rw [List.foldl_map, List.foldl_reverse]
      exact (foldr_digitChar_eq_ofDecRev _ hdig).trans (ofDecRev_toDecRevFuel n n le_rfl)
    have hcond : (!((toDecRevFuel n n).reverse.map digitChar).isEmpty &&
        ((toDecRevFuel n n).reverse.map digitChar).all isDecDigit) = true := by
      rw [hnonempty, hall]; rfl
    unfold natToDecChars decCharsToNat?
    rw [if_neg h0, if_pos hcond, hfold]

theorem natToDecChars_ne_nil (n : Nat) : natToDecChars n ≠ [] := by
  unfold natToDecChars
  by_cases h0 : n = 0
  · simp [h0]
  · rw [if_neg h0]
    intro hcontra
    rw [List.map_eq_nil_iff, List.reverse_eq_nil_iff] at hcontra
    match n, h0, hcontra with
    | m + 1, _, hcontra => exact toDecRevFuel_ne_nil m m hcontra

theorem natToDecChars_all_digits (n : Nat) :
    ∀ c ∈ natToDecChars n, isDecDigit c = true := by
  intro c hc
  unfold natToDecChars at hc
  by_cases h0 : n = 0
  · simp [h0] at hc; subst hc; decide
  · rw [if_neg h0] at hc
    simp only [List.mem_map, List.mem_reverse] at hc
    rcases hc with ⟨d, hd, rfl⟩
    exact isDecDigit_digitChar (toDecRevFuel_lt_ten n n d hd)

/-- The textual round trip is lossless for every integer. -/
theorem decimalToInt?_intToDecimal (n : Int) :
    decimalToInt? (intToDecimal n) = some n := by
  unfold decimalToInt? intToDecimal intToDecChars
  by_cases hneg : n < 0
  · rw [if_pos hneg]
    show decCharsToInt? ('-' :: natToDecChars n.natAbs) = some n
    simp only [decCharsToInt?, if_pos, decCharsToNat?_natToDecChars]
    simp [Int.ofNat_natAbs_of_nonpos (le_of_lt hneg)]
  · rw [if_neg hneg]
    show decCharsToInt? (natToDecChars n.toNat) = some n
    rcases hcons : natToDecChars n.toNat with _ | ⟨c, rest⟩
    · exact absurd hcons (natToDecChars_ne_nil _)
    · have hcdig : isDecDigit c = true := by
        have := natToDecChars_all_digits n.toNat c
        rw [hcons] at this
        exact this (List.mem_cons_self c rest)
      have hcm : c ≠ '-' := by intro h; subst h; simp [isDecDigit] at hcdig
      have hcp : c ≠ '+' := by intro h; subst h; simp [isDecDigit] at hcdig
      simp only [decCharsToInt?]
      rw [if_neg hcm, if_neg hcp, ← hcons, decCharsToNat?_natToDecChars]
      simp [Int.toNat_of_nonneg (not_lt.mp hneg)]

/-! ### Claim theorems -/

/-- C1: evaluation at the failing input.  Starting from a store holding one
user and one unverified challenge with auth id `a`, a first
`CreateActiveSession` call succeeds and marks the challenge verified; a
second call on the same auth id succeeds again and a second ActiveSession
row exists afterwards.  The `UPDATE ... WHERE auth_id = $1` guard checks
neither `verified` nor expiry, so a consumed challenge is not terminal and
repeat verification double-creates sessions, contrary to the stated
invariant. -/
theorem createActiveSession_double_creation :
    (CreateActiveSession ⟨[⟨1, "alice", "1", "2", 0, 0⟩],
        [⟨1, "a", 1, "3", "4", "5", 0, 100, false⟩], []⟩ "a" 50 "s1" 10).1 = .ok "s1" ∧
    (∀ r ∈ (CreateActiveSession ⟨[⟨1, "alice", "1", "2", 0, 0⟩],
        [⟨1, "a", 1, "3", "4", "5", 0, 100, false⟩], []⟩ "a" 50 "s1" 10).2.auth_sessions,
      r.verified = true) ∧
    (CreateActiveSession (CreateActiveSession ⟨[⟨1, "alice", "1", "2", 0, 0⟩],
        [⟨1, "a", 1, "3", "4", "5", 0, 100, false⟩], []⟩ "a" 50 "s1" 10).2
        "a" 50 "s2" 20).1 = .ok "s2" ∧
    (CreateActiveSession (CreateActiveSession ⟨[⟨1, "alice", "1", "2", 0, 0⟩],
        [⟨1, "a", 1, "3", "4", "5", 0, 100, false⟩], []⟩ "a" 50 "s1" 10).2
        "a" 50 "s2" 20).2.active_sessions.length = 2 := by
  decide

/-- C2 counterexample: a challenge row whose deadline (5) has already passed
at the current instant (10) is still consumed by `CreateActiveSession`: the
call returns a session id, the verified flag is flipped, and an ActiveSession
row is inserted — it neither fails with NotFound nor leaves the state
unchanged. -/
theorem createActiveSession_consumes_expired_challenge :
    (CreateActiveSession ⟨[⟨1, "alice", "1", "2", 0, 0⟩],
        [⟨1, "a", 1, "3", "4", "5", 0, 5, false⟩], []⟩ "a" 50 "s1" 10).1 = .ok "s1" ∧
    (CreateActiveSession ⟨[⟨1, "alice", "1", "2", 0, 0⟩],
        [⟨1, "a", 1, "3", "4", "5", 0, 5, false⟩], []⟩ "a" 50 "s1" 10).2.active_sessions.length = 1 ∧
    (CreateActiveSession ⟨[⟨1, "alice", "1", "2", 0, 0⟩],
        [⟨1, "a", 1, "3", "4", "5", 0, 5, false⟩], []⟩ "a" 50 "s1" 10).2.auth_sessions =
      [⟨1, "a", 1, "3", "4", "5", 0, 5, true⟩] := by
  decide

/-- C2 amended: only when no `auth_sessions` row at all carries the auth id
does `CreateActiveSession` fail: it returns the wrapped no-rows error,
inserts no ActiveSession row, and leaves the whole store unchanged (the
transaction rolls back). -/
theorem createActiveSession_nonexistent_authId
    (st : DBState) (authID : String) (ttl : Nat) (sessionID : String) (now : Nat)
    (h : st.auth_sessions.find? (fun s => s.auth_id == authID) = none) :
    CreateActiveSession st authID ttl sessionID now =
      (.error (.wrapped "failed to verify auth session" .noRows), st) := by
  unfold CreateActiveSession
  rw [h]

/-- C2 witness for the amended theorem, at the empty store. -/
theorem createActiveSession_nonexistent_authId_witness :
    CreateActiveSession ⟨[], [], []⟩ "a" 50 "s1" 10 =
      (.error (.wrapped "failed to verify auth session" .noRows), ⟨[], [], []⟩) :=
  createActiveSession_nonexistent_authId ⟨[], [], []⟩ "a" 50 "s1" 10 rfl

/-- C3: evaluation at the failing input.  A stored users row whose y1 text is
`abc` (not a base-10 integer) does not make `GetUserByUsername` or
`GetUserByID` fail: both return `.ok` with a `User` whose `Y1` is the
undefined value left by the ignored `SetString` failure, contrary to the
claim that any parse failure is fatal to the call. -/
theorem getUser_ignores_parse_failure :
    GetUserByUsername ⟨[⟨1, "alice", "abc", "2", 0, 0⟩], [], []⟩ "alice" =
      .ok { ID := 1, Username := "alice", Y1 := none, Y2 := some 2,
            CreatedAt := 0, UpdatedAt := 0 } ∧
    GetUserByID ⟨[⟨1, "alice", "abc", "2", 0, 0⟩], [], []⟩ 1 =
      .ok { ID := 1, Username := "alice", Y1 := none, Y2 := some 2,
            CreatedAt := 0, UpdatedAt := 0 } := by
  decide

/-- C4: `GetAuthSession` returns the one fixed error
`auth session not found or expired` both when no row carries the id and when
every row carrying it has expired (`expires_at ≤ now`), so the two cases are
indistinguishable to the caller; and a challenge inserted with ttl 0 is
already unreachable through this call at any instant at or after its
creation. -/
theorem getAuthSession_absent_and_expired_conflated :
    (∀ (st : DBState) (authID : String) (now : Nat),
      (∀ r ∈ st.auth_sessions, r.auth_id = authID → r.expires_at ≤ now) →
      GetAuthSession st authID now = .error (.msg "auth session not found or expired"))
  ∧ (∀ (st : DBState) (username : String) (c r1 r2 : Int) (authID : String) (now later : Nat),
      (CreateAuthSession st username c r1 r2 0 authID now).1 = .ok authID →
      now ≤ later →
      GetAuthSession (CreateAuthSession st username c r1 r2 0 authID now).2 authID later =
        .error (.msg "auth session not found or expired")) := by
  constructor
  · intro st authID now h
    unfold GetAuthSession
    have hfind : st.auth_sessions.find?
        (fun s => s.auth_id == authID && decide (now < s.expires_at)) = none := by
      rw [List.find?_eq_none]
      intro r hr
      simp only [Bool.and_eq_true, beq_iff_eq, decide_eq_true_eq, not_and]
      intro heq
      have := h r hr heq
      omega
    rw [hfind]
  · intro st username c r1 r2 authID now later hok hle
    rcases hu : st.users.find? (fun u => u.username == username) with _ | u
    · have hbad : (CreateAuthSession st username c r1 r2 0 authID now).1 =
          .error (.wrapped "failed to get user ID" .noRows) := by
        simp only [CreateAuthSession, hu]
      rw [hbad] at hok
      exact absurd hok (by simp)
    · by_cases hdup : st.auth_sessions.any (fun s => s.auth_id == authID) = true
      · have hbad : (CreateAuthSession st username c r1 r2 0 authID now).1 =
            .error (.wrapped "failed to create auth session"
              (.uniqueViolation "auth_sessions_auth_id_key")) := by
          simp only [CreateAuthSession, hu, hdup, if_true]
        rw [hbad] at hok
        exact absurd hok (by simp)
      · have hst2 : (CreateAuthSession st username c r1 r2 0 authID now).2 =
            { st with auth_sessions := st.auth_sessions ++
              ([{ id := st.auth_sessions.length + 1, auth_id := authID, user_id := u.id,
                  challenge_c := intToDecimal c, commitment_r1 := intToDecimal r1,
                  commitment_r2 := intToDecimal r2, created_at := now,
                  expires_at := now + 0, verified := false }] : List AuthSessionsRow) } := by
          simp only [CreateAuthSession, hu]
          rw [if_neg hdup]
        rw [hst2]
        have hfind : (st.auth_sessions ++
            ([{ id := st.auth_sessions.length + 1, auth_id := authID, user_id := u.id,
                challenge_c := intToDecimal c, commitment_r1 := intToDecimal r1,
                commitment_r2 := intToDecimal r2, created_at := now,
                expires_at := now + 0, verified := false }] : List AuthSessionsRow)).find?
            (fun s => s.auth_id == authID && decide (later < s.expires_at)) = none := by
          rw [List.find?_eq_none]
          intro r hr
          rcases List.mem_append.mp hr with hold | hnew
          · have hra : ¬ ((r.auth_id == authID) = true) := fun hcontra =>
              hdup (List.any_eq_true.mpr ⟨r, hold, hcontra⟩)
            simp only [Bool.and_eq_true, not_and]
            intro h1
            exact absurd h1 hra
          · rw [List.mem_singleton] at hnew
            subst hnew
            simp only [Bool.and_eq_true, decide_eq_true_eq, not_and]
            intro _
            omega
        simp only [GetAuthSession, hfind]

/-- C4 witness: a store whose only challenge row with auth id `a` has expired
(deadline 5, instant 7), and a fresh ttl-0 challenge fetched one tick after
creation: both calls return the one fixed error. -/
theorem getAuthSession_absent_and_expired_conflated_witness :
    GetAuthSession ⟨[], [⟨1, "a", 1, "1", "1", "1", 0, 5, false⟩], []⟩ "a" 7 =
        .error (.msg "auth session not found or expired") ∧
    GetAuthSession (CreateAuthSession ⟨[⟨1, "alice", "1", "2", 0, 0⟩], [], []⟩
        "alice" 1 2 3 0 "a" 5).2 "a" 6 =
        .error (.msg "auth session not found or expired") :=
  ⟨getAuthSession_absent_and_expired_conflated.1
      ⟨[], [⟨1, "a", 1, "1", "1", "1", 0, 5, false⟩], []⟩ "a" 7 (by decide),
   getAuthSession_absent_and_expired_conflated.2
      ⟨[⟨1, "alice", "1", "2", 0, 0⟩], [], []⟩ "alice" 1 2 3 "a" 5 6
      (by decide) (by decide)⟩

/-- C5: creating a challenge for a username with no users row fails with the
wrapped no-rows error from the user-id lookup, and the whole store is left
unchanged: the transaction rolls back, so no auth_sessions row is inserted. -/
theorem createAuthSession_unknown_username
    (st : DBState) (username : String) (c r1 r2 : Int) (ttl : Nat)
    (authID : String) (now : Nat)
    (h : st.users.find? (fun u => u.username == username) = none) :
    CreateAuthSession st username c r1 r2 ttl authID now =
      (.error (.wrapped "failed to get user ID" .noRows), st) := by
  unfold CreateAuthSession
  rw [h]

/-- C5 witness at the empty store. -/
theorem createAuthSession_unknown_username_witness :
    CreateAuthSession ⟨[], [], []⟩ "bob" 1 2 3 60 "a" 5 =
      (.error (.wrapped "failed to get user ID" .noRows), ⟨[], [], []⟩) :=
  createAuthSession_unknown_username ⟨[], [], []⟩ "bob" 1 2 3 60 "a" 5 rfl

/-- C6 counterexample: registering a username that is already taken fails
with the wrapped internal store error, which carries the unique-constraint
detail, not a distinct DuplicateUser classification of a public taxonomy. -/
theorem registerUser_duplicate_wrapped_store_error :
    RegisterUser ⟨[⟨1, "alice", "1", "2", 0, 0⟩], [], []⟩ "alice" 3 4 9 =
      (.error (.wrapped "failed to register user" (.uniqueViolation "users_username_key")),
       ⟨[⟨1, "alice", "1", "2", 0, 0⟩], [], []⟩) := by
  decide

/-- C6 amended: registering an already-used username always fails and adds no
row (the store is unchanged), but the error surfaced is the wrapped
constraint-violation store error rather than a dedicated DuplicateUser
error. -/
theorem registerUser_duplicate_no_row
    (st : DBState) (username : String) (y1 y2 : Int) (now : Nat)
    (h : st.users.any (fun u => u.username == username) = true) :
    RegisterUser st username y1 y2 now =
      (.error (.wrapped "failed to register user" (.uniqueViolation "users_username_key")), st) := by
  unfold RegisterUser
  rw [if_pos h]

/-- C6 witness for the amended theorem. -/
theorem registerUser_duplicate_no_row_witness :
    RegisterUser ⟨[⟨1, "alice", "1", "2", 0, 0⟩], [], []⟩ "alice" 3 4 9 =
      (.error (.wrapped "failed to register user" (.uniqueViolation "users_username_key")),
       ⟨[⟨1, "alice", "1", "2", 0, 0⟩], [], []⟩) :=
  registerUser_duplicate_no_row ⟨[⟨1, "alice", "1", "2", 0, 0⟩], [], []⟩ "alice" 3 4 9 (by decide)

/-- C7: for every fresh username and all integers y1, y2 (arbitrary
precision, 2048-bit values included), registering and then reading the user
back by username succeeds and returns exactly the registered values: the
base-10 textual encoding round trip through the store is lossless. -/
theorem registerUser_getUserByUsername_roundtrip
    (st : DBState) (username : String) (y1 y2 : Int) (now : Nat)
    (h : st.users.find? (fun u => u.username == username) = none) :
    (RegisterUser st username y1 y2 now).1 = .ok () ∧
    GetUserByUsername (RegisterUser st username y1 y2 now).2 username =
      .ok { ID := st.users.length + 1, Username := username,
            Y1 := some y1, Y2 := some y2, CreatedAt := now, UpdatedAt := now } := by
  have hany : ¬ (st.users.any (fun u => u.username == username) = true) := by
    rw [List.any_eq_true]
    rintro ⟨u, hu, hp⟩
    exact List.find?_eq_none.mp h u hu hp
  constructor
  · unfold RegisterUser
    rw [if_neg hany]
  · have hst2 : (RegisterUser st username y1 y2 now).2 =
        { st with users := st.users ++
          ([{ id := st.users.length + 1, username := username,
              y1 := intToDecimal y1, y2 := intToDecimal y2,
              created_at := now, updated_at := now }] : List UsersRow) } := by
      unfold RegisterUser
      rw [if_neg hany]
    rw [hst2]
    have hfind : (st.users ++
        ([{ id := st.users.length + 1, username := username,
            y1 := intToDecimal y1, y2 := intToDecimal y2,
            created_at := now, updated_at := now }] : List UsersRow)).find?
        (fun u => u.username == username) =
        some { id := st.users.length + 1, username := username,
               y1 := intToDecimal y1, y2 := intToDecimal y2,
               created_at := now, updated_at := now } := by
      rw [List.find?_append, h]
      simp
    simp only [GetUserByUsername, hfind, decimalToInt?_intToDecimal]

/-- C7 witness: concrete round trip through the store at the empty state. -/
theorem registerUser_getUserByUsername_roundtrip_witness :
    (RegisterUser ⟨[], [], []⟩ "alice" 5 7 3).1 = .ok () ∧
    GetUserByUsername (RegisterUser ⟨[], [], []⟩ "alice" 5 7 3).2 "alice" =
      .ok { ID := 1, Username := "alice", Y1 := some 5, Y2 := some 7,
            CreatedAt := 3, UpdatedAt := 3 } :=
  registerUser_getUserByUsername_roundtrip ⟨[], [], []⟩ "alice" 5 7 3 rfl

/-- C8: when `NewDatabase` fails at startup, the process neither crashes nor
refuses to boot: the server is still started, with a nil store handle in its
configuration, deferring store failures to later use. -/
theorem mainServer_starts_degraded_without_store {P D : Type} (params : P) (e : String) :
    mainServer (D := D) (.ok params) (.error e) =
      .started { CPZKP := params, DB := none } := rfl

/-- C9: `GetAuthSession` does not filter on the verified flag: when the row
found by the id-and-unexpired filter is already verified, the call still
returns it, with `Verified = true`, rather than reporting NotFound. -/
theorem getAuthSession_ignores_verified_flag
    (st : DBState) (authID : String) (now : Nat) (r : AuthSessionsRow)
    (hfind : st.auth_sessions.find?
      (fun s => s.auth_id == authID && decide (now < s.expires_at)) = some r)
    (hver : r.verified = true) :
    GetAuthSession st authID now =
      .ok { ID := r.id, Username := "", AuthID := r.auth_id, UserID := r.user_id,
            ChallengeC := decimalToInt? r.challenge_c,
            CommitmentR1 := decimalToInt? r.commitment_r1,
            CommitmentR2 := decimalToInt? r.commitment_r2,
            CreatedAt := r.created_at, ExpiresAt := r.expires_at,
            Verified := true } := by
  simp only [GetAuthSession, hfind, hver]

/-- C9 witness: a verified, unexpired challenge row is returned intact. -/
theorem getAuthSession_ignores_verified_flag_witness :
    GetAuthSession ⟨[], [⟨1, "a", 1, "1", "2", "3", 0, 100, true⟩], []⟩ "a" 5 =
      .ok { ID := 1, Username := "", AuthID := "a", UserID := 1,
            ChallengeC := some 1, CommitmentR1 := some 2, CommitmentR2 := some 3,
            CreatedAt := 0, ExpiresAt := 100, Verified := true } :=
  getAuthSession_ignores_verified_flag
    ⟨[], [⟨1, "a", 1, "1", "2", "3", 0, 100, true⟩], []⟩ "a" 5
    ⟨1, "a", 1, "1", "2", "3", 0, 100, true⟩ (by decide) rfl

/-- C10: expiry comparisons are strict on both sides: the reads treat a row as
present only when `expires_at` is strictly greater than now, while the sweep
deletes only rows with `expires_at` strictly less than now; hence a row whose
deadline equals the current instant is invisible to both reads yet survives
the sweep at that instant. -/
theorem expiry_strict_boundary :
    (∀ (st : DBState) (authID : String) (now : Nat),
      (∀ r ∈ st.auth_sessions, r.auth_id = authID → r.expires_at = now) →
      GetAuthSession st authID now = .error (.msg "auth session not found or expired"))
  ∧ (∀ (st : DBState) (sessionID : String) (now : Nat),
      (∀ r ∈ st.active_sessions, r.session_id = sessionID → r.expires_at = now) →
      GetActiveSession st sessionID now = .error (.msg "session not found or expired"))
  ∧ (∀ (st : DBState) (now : Nat) (r : AuthSessionsRow),
      r ∈ st.auth_sessions → r.expires_at = now →
      r ∈ (CleanupExpiredSessions st now).auth_sessions)
  ∧ (∀ (st : DBState) (now : Nat) (r : ActiveSessionsRow),
      r ∈ st.active_sessions → r.expires_at = now →
      r ∈ (CleanupExpiredSessions st now).active_sessions) := by
  refine ⟨?_, ?_, ?_, ?_⟩
  · intro st authID now h
    unfold GetAuthSession
    have hfind : st.auth_sessions.find?
        (fun s => s.auth_id == authID && decide (now < s.expires_at)) = none := by
      rw [List.find?_eq_none]
      intro r hr
      simp only [Bool.and_eq_true, beq_iff_eq, decide_eq_true_eq, not_and]
      intro heq
      have := h r hr heq
      omega
    rw [hfind]
  · intro st sessionID now h
    unfold GetActiveSession
    have hfind : st.active_sessions.find?
        (fun a => a.session_id == sessionID && decide (now < a.expires_at)) = none := by
      rw [List.find?_eq_none]
      intro r hr
      simp only [Bool.and_eq_true, beq_iff_eq, decide_eq_true_eq, not_and]
      intro heq
      have := h r hr heq
      omega
    rw [hfind]
  · intro st now r hmem hexp
    simp only [CleanupExpiredSessions, List.mem_filter]
    exact ⟨hmem, by simp [hexp]⟩
  · intro st now r hmem hexp
    simp only [CleanupExpiredSessions, List.mem_filter]
    exact ⟨hmem, by simp [hexp]⟩

/-- C10 witness: a challenge row and an active-session row whose deadline
equals the instant 5 are invisible to the reads yet kept by the sweep. -/
theorem expiry_strict_boundary_witness :
    GetAuthSession ⟨[], [⟨1, "a", 1, "1", "1", "1", 0, 5, false⟩], []⟩ "a" 5 =
        .error (.msg "auth session not found or expired") ∧
    GetActiveSession ⟨[], [], [⟨1, "s", 1, 0, 5, 0⟩]⟩ "s" 5 =
        .error (.msg "session not found or expired") ∧
    (⟨1, "a", 1, "1", "1", "1", 0, 5, false⟩ : AuthSessionsRow) ∈
        (CleanupExpiredSessions ⟨[], [⟨1, "a", 1, "1", "1", "1", 0, 5, false⟩], []⟩ 5).auth_sessions ∧
    (⟨1, "s", 1, 0, 5, 0⟩ : ActiveSessionsRow) ∈
        (CleanupExpiredSessions ⟨[], [], [⟨1, "s", 1, 0, 5, 0⟩]⟩ 5).active_sessions :=
  ⟨expiry_strict_boundary.1 ⟨[], [⟨1, "a", 1, "1", "1", "1", 0, 5, false⟩], []⟩ "a" 5 (by decide),
   expiry_strict_boundary.2.1 ⟨[], [], [⟨1, "s", 1, 0, 5, 0⟩]⟩ "s" 5 (by decide),
   expiry_strict_boundary.2.2.1 ⟨[], [⟨1, "a", 1, "1", "1", "1", 0, 5, false⟩], []⟩ 5
     ⟨1, "a", 1, "1", "1", "1", 0, 5, false⟩ (by decide) rfl,
   expiry_strict_boundary.2.2.2 ⟨[], [], [⟨1, "s", 1, 0, 5, 0⟩]⟩ 5
     ⟨1, "s", 1, 0, 5, 0⟩ (by decide) rfl⟩
